import Mathlib

/-!
Shallow embedding of the status-aggregator / command-dispatcher backend in
`src/hybrid-desktop-app/src-tauri/src/lib.rs`.

External effects (filesystem reads, process spawning, `kill -0`, `pgrep`,
`curl`, `ps`, the system clock) are modelled as fields of explicit
environment structures; each backend handler becomes a pure function of
such an environment.  JSON values (`serde_json::Value`) are modelled by a
small inductive covering the shapes the handlers actually build: booleans,
strings, and objects as association lists.
-/

/-- Model of the `serde_json::Value` shapes produced by the handlers. -/
inductive JValue where
  | jbool (b : Bool)
  | jstr (s : String)
  | jobj (fields : List (String × JValue))

/-- Field lookup in an object's association list (first match wins;
the handlers never build duplicate keys). -/
def lookupField : List (String × JValue) → String → Option JValue
  | [], _ => none
  | (k, v) :: rest, key => if key = k then some v else lookupField rest key

/-- Model of `Value::get` restricted to string keys: `none` on non-objects. -/
def JValue.getField : JValue → String → Option JValue
  | .jobj fs, key => lookupField fs key
  | _, _ => none

/-- Model of `Value::as_bool`. -/
def JValue.asBool : JValue → Option Bool
  | .jbool b => some b
  | _ => none

/-- Insert-or-replace of a key in an object's association list, the effect of
`status[key] = v` on a `serde_json` object (replace when the key exists,
insert otherwise; the claims never depend on key order). -/
def setEntry : List (String × JValue) → String → JValue → List (String × JValue)
  | [], key, v => [(key, v)]
  | (k, w) :: rest, key, v =>
    if key = k then (k, v) :: rest else (k, w) :: setEntry rest key v

/-- Model of index assignment `status[key] = v`; the handlers only ever apply
it to objects, so non-objects are left unchanged. -/
def JValue.setField : JValue → String → JValue → JValue
  | .jobj fs, key, v => .jobj (setEntry fs key v)
  | j, _, _ => j

/-- Unwrap an always-`Ok` handler result (the handlers under study never
produce the error variant, which the theorems establish separately). -/
def okValue : Except String JValue → JValue
  | .ok v => v
  | .error _ => .jobj []

/-- Model of Rust `str::trim`: drop whitespace from both ends.  (Rust trims
the full Unicode White_Space set; the claims only involve ASCII whitespace.) -/
def rustTrim (s : String) : String :=
  ⟨((s.data.dropWhile Char.isWhitespace).reverse.dropWhile Char.isWhitespace).reverse⟩

/-- Numeric value of a list of ASCII digit characters. -/
def digitsToNat (ds : List Char) : Nat :=
  ds.foldl (fun a c => a * 10 + (c.toNat - 48)) 0

/-- Model of Rust `str::parse::<i32>`: an optional single `+`/`-` sign, then
one or more ASCII digits and nothing else, with the result required to fit
in the `i32` range. -/
def rustParseI32 (s : String) : Option Int :=
  match s.data with
  | [] => none
  | c :: rest =>
    let signed : Bool × List Char :=
      if c = '-' then (true, rest)
      else if c = '+' then (false, rest)
      else (false, c :: rest)
    match signed with
    | (neg, ds) =>
      if ds.isEmpty then none
      else if ds.all Char.isDigit then
        let v : Int := if neg then -(digitsToNat ds : Int) else (digitsToNat ds : Int)
        if -(2 ^ 31) ≤ v ∧ v < 2 ^ 31 then some v else none
      else none

/-- Outcome of an HTTP attempt as seen by `curl`: a completed response with
some status code, a timeout, or a refused/failed connection. -/
inductive HttpResult where
  | response (status : Nat)
  | timeout
  | connRefused

/-- Modelled from curl's documented exit-code behaviour: the process exits 0
exactly when the transfer completes (any HTTP status), unless `-f`/`--fail`
is among the arguments, in which case an HTTP error status makes it exit
non-zero.  Timeouts (exit 28) and refused connections (exit 7) are always
non-zero. -/
def curlExitZero (args : List String) (r : HttpResult) : Bool :=
  match r with
  | .response status =>
    if args.contains "-f" || args.contains "--fail" then decide (status < 400) else true
  | .timeout => false
  | .connRefused => false

/-- PID file consulted for the autonomous launcher. -/
def autoPidPath : String := "logs/autonomous_launcher.pid"

/-- PID file consulted for the MCP auto-restart service. -/
def mcpPidPath : String := "logs/mcp_auto_restart.pid"

/-- Fixed dashboard liveness URL. -/
def dashboardUrl : String := "http://localhost:8085"

/-- Argument list of every `curl` invocation in the source:
`curl -s --max-time 2 http://localhost:8085`. -/
def statusCurlArgs : List String := ["-s", "--max-time", "2", dashboardUrl]

/-- Environment of the status aggregator: each field models one external
effect the handlers perform.  `readToString` is `none` when the read fails;
`killOutput`, `pgrep` are `none` when the helper process cannot be launched,
otherwise `some` of its exit-status success; `httpGet` is `none` when `curl`
itself cannot be launched; `psEtime pid` is the decoded stdout of
`ps -p pid -o etime=`, `none` when `ps` fails to launch or its output is not
valid UTF-8; `now` is the RFC-3339 string the clock library rendered. -/
structure Env where
  pathExists : String → Bool
  readToString : String → Option String
  killOutput : Int → Option Bool
  pgrep : String → Option Bool
  httpGet : String → Option HttpResult
  psEtime : Int → Option String
  now : String

/-- PID-file probe, the block the source repeats verbatim for each of the two
PID files: path must exist, its contents read, trimmed and parsed as an
`i32`, then `kill -0 <pid>` must launch and exit successfully; every failure
yields `false`. -/
def pidFileProbe (env : Env) (path : String) : Bool :=
  env.pathExists path &&
    (match env.readToString path with
     | some pid_str =>
       match rustParseI32 (rustTrim pid_str) with
       | some pid => (env.killOutput pid).getD false
       | none => false
     | none => false)

/-- Process-pattern probe: `pgrep -f <pat>` exit success, launch failure
coerced to `false`. -/
def pgrepProbe (env : Env) (pat : String) : Bool :=
  (env.pgrep pat).getD false

/-- HTTP-ping probe: `curl -s --max-time 2 http://localhost:8085` exit
success, launch failure coerced to `false`. -/
def curlProbe (env : Env) : Bool :=
  match env.httpGet dashboardUrl with
  | some r => curlExitZero statusCurlArgs r
  | none => false

/-- Embedding of `get_system_status` (lib.rs lines 8-62). -/
def get_system_status (env : Env) : Except String JValue :=
  let autonomous_running := pidFileProbe env autoPidPath
  let mcp_server_running := pidFileProbe env mcpPidPath
  let health_monitor_active := pgrepProbe env "health_monitor.sh"
  let web_dashboards_available := curlProbe env
  .ok (.jobj
    [("autonomous_running", .jbool autonomous_running),
     ("mcp_server_running", .jbool mcp_server_running),
     ("health_monitor_active", .jbool health_monitor_active),
     ("web_dashboards_available", .jbool web_dashboards_available),
     ("last_health_check", .jstr env.now)])

/-- Names of the five fields of the base status snapshot. -/
def statusFieldNames : List String :=
  ["autonomous_running", "mcp_server_running", "health_monitor_active",
   "web_dashboards_available", "last_health_check"]

/-- Fields of a parsed RFC-3339 timestamp. -/
structure ParsedTimestamp where
  year : Nat
  month : Nat
  day : Nat
  hour : Nat
  minute : Nat
  second : Nat
deriving DecidableEq

/-- Read exactly `n` ASCII digits from the front of a character list. -/
def parseFixedNat (n : Nat) (cs : List Char) : Option (Nat × List Char) :=
  let ds := cs.take n
  if ds.length == n && ds.all Char.isDigit then some (digitsToNat ds, cs.drop n)
  else none

/-- Consume one expected character. -/
def expectChar (c : Char) : List Char → Option (List Char)
  | [] => none
  | x :: xs => if x = c then some xs else none

/-- Consume an optional fractional-seconds part: a dot followed by at least
one digit. -/
def parseOptionalFrac : List Char → Option (List Char)
  | '.' :: rest =>
    if (rest.takeWhile Char.isDigit).isEmpty then none
    else some (rest.dropWhile Char.isDigit)
  | cs => some cs

/-- Check that the remaining characters form an RFC-3339 UTC offset:
`Z` or a signed `hh:mm` pair. -/
def validOffset : List Char → Bool
  | ['Z'] => true
  | [s, h1, h2, ':', m1, m2] =>
    (s = '+' || s = '-') && h1.isDigit && h2.isDigit && m1.isDigit && m2.isDigit
  | _ => false

/-- RFC-3339 timestamp parser covering the `chrono` `to_rfc3339` output
shape `YYYY-MM-DDTHH:MM:SS[.fff…](Z|±hh:mm)`, with basic range checks on the
date and time fields. -/
def rfc3339Parse (s : String) : Option ParsedTimestamp := do
  let cs := s.data
  let (y, cs) ← parseFixedNat 4 cs
  let cs ← expectChar '-' cs
  let (mo, cs) ← parseFixedNat 2 cs
  let cs ← expectChar '-' cs
  let (d, cs) ← parseFixedNat 2 cs
  let cs ← expectChar 'T' cs
  let (h, cs) ← parseFixedNat 2 cs
  let cs ← expectChar ':' cs
  let (mi, cs) ← parseFixedNat 2 cs
  let cs ← expectChar ':' cs
  let (sec, cs) ← parseFixedNat 2 cs
  let cs ← parseOptionalFrac cs
  if 1 ≤ mo && mo ≤ 12 && 1 ≤ d && d ≤ 31 && h ≤ 23 && mi ≤ 59 && sec ≤ 60
      && validOffset cs then
    some ⟨y, mo, d, h, mi, sec⟩
  else none

/-- Uptime-enrichment block of `get_detailed_status`, repeated in the source
once per service: when the snapshot's flag field is `true`, re-read the PID
file, parse it, run `ps -p <pid> -o etime=`, default the decoded output to
the empty string on any `ps` failure, trim it, and store it under the uptime
key; when the re-read or the parse fails the snapshot is left unchanged. -/
def addUptime (env : Env) (status : JValue) (flagKey pidPath uptimeKey : String) :
    JValue :=
  match (status.getField flagKey).bind JValue.asBool with
  | some true =>
    match env.readToString pidPath with
    | some pid_str =>
      match rustParseI32 (rustTrim pid_str) with
      | some pid =>
        let uptime_output := rustTrim ((env.psEtime pid).getD "")
        status.setField uptimeKey (.jstr uptime_output)
      | none => status
    | none => status
  | _ => status

/-- Embedding of `get_detailed_status` (lib.rs lines 64-109): the base
snapshot enriched with `autonomous_uptime` and `mcp_uptime`. -/
def get_detailed_status (env : Env) : Except String JValue := do
  let status ← get_system_status env
  let status := addUptime env status "autonomous_running" autoPidPath "autonomous_uptime"
  let status := addUptime env status "mcp_server_running" mcpPidPath "mcp_uptime"
  .ok status

/-- Environment of the dashboard bootstrap.  `currentDir` models
`env::current_dir()`; `parentDir` models `.parent()` of that path (`none` at
a filesystem root); `curlInitial` and `curlAfter` are the outcomes the two
`curl` probes would observe, before and after the 2-second grace period;
`spawn` is the result of spawning `python3 dashboard_server.py`. -/
structure DashEnv where
  currentDir : Except String String
  parentDir : Option String
  curlInitial : Option HttpResult
  spawn : Except String Unit
  curlAfter : Option HttpResult

/-- Exit-success of one dashboard `curl` probe, launch failure coerced to
`false`. -/
def dashCurlOk (r : Option HttpResult) : Bool :=
  match r with
  | some h => curlExitZero statusCurlArgs h
  | none => false

/-- Result of one `start_dashboard_server` run together with ghost
instrumentation: how many spawns were attempted, how many `curl` probes were
issued, and how many seconds were slept. -/
structure DashTrace where
  result : Except String String
  spawns : Nat
  probes : Nat
  sleptSecs : Nat

/-- Embedding of `start_dashboard_server` (lib.rs lines 110-154) with ghost
counters: resolve the current directory and its parent, probe the dashboard
URL, return early when it already responds, otherwise spawn the server,
sleep 2 seconds, and re-probe once. -/
def sdsTraced (env : DashEnv) : DashTrace :=
  match env.currentDir with
  | .error e => ⟨.error ("Failed to get current directory: " ++ e), 0, 0, 0⟩
  | .ok _ =>
    match env.parentDir with
    | none => ⟨.error "Failed to get project root", 0, 0, 0⟩
    | some _ =>
      if dashCurlOk env.curlInitial then
        ⟨.ok "✅ Dashboard server is already running", 0, 1, 0⟩
      else
        match env.spawn with
        | .error e => ⟨.error ("❌ Failed to start dashboard server: " ++ e), 1, 1, 0⟩
        | .ok _ =>
          if dashCurlOk env.curlAfter then
            ⟨.ok "✅ Dashboard server started successfully", 1, 2, 2⟩
          else
            ⟨.ok "⚠️ Dashboard server may have started but is not responding yet", 1, 2, 2⟩

/-- Observable result of `start_dashboard_server`. -/
def start_dashboard_server (env : DashEnv) : Except String String :=
  (sdsTraced env).result

/-- The dispatcher's external action kinds: a fixed shell invocation (indexed
here by its command identifier, the spec fixes one script per identifier
without naming it) or a fixed HTTP POST path on the local service. -/
inductive CommandAction where
  | shell (script : String)
  | http (path : String)
deriving DecidableEq

/-- Tri-state outcome of command dispatch. -/
inductive CommandResult where
  | success (stdout : String)
  | warning (stdout stderr : String)
  | failure (err : String)
deriving DecidableEq

/-- Captured output of a launched external process. -/
structure ProcOutput where
  exitCode : Nat
  stdout : String
  stderr : String

/-- Environment of the command dispatcher: `runShell` launches the fixed
shell action of a command (`.error` when the process cannot be launched at
all, otherwise its captured output); `httpPost` performs the fixed POST
(`.error` on a transport-level failure, otherwise the response body). -/
structure DispatchEnv where
  runShell : String → Except String ProcOutput
  httpPost : String → Except String String

/-- Modelled from the spec: the closed command table of `run_system_command`,
whose Rust source is not present in the repository (only its registration in
the handler list is).  Nine identifiers map to fixed shell invocations and
four to fixed HTTP POST paths on `http://localhost:5001`. -/
def commandAction (id : String) : Option CommandAction :=
  if id = "start_autonomous" then some (.shell "start_autonomous")
  else if id = "stop_autonomous" then some (.shell "stop_autonomous")
  else if id = "restart_mcp" then some (.shell "restart_mcp")
  else if id = "restart_all" then some (.shell "restart_all")
  else if id = "run_health_check" then some (.shell "run_health_check")
  else if id = "list_processes" then some (.shell "list_processes")
  else if id = "check_logs" then some (.shell "check_logs")
  else if id = "clean_temp" then some (.shell "clean_temp")
  else if id = "update_system" then some (.shell "update_system")
  else if id = "analyze_project" then some (.http "/analyze")
  else if id = "process_todos" then some (.http "/process")
  else if id = "execute_critical" then some (.http "/execute")
  else if id = "generate_report" then some (.http "/report")
  else none

/-- The closed set of valid command identifiers. -/
def knownCommands : List String :=
  ["start_autonomous", "stop_autonomous", "restart_mcp", "restart_all",
   "run_health_check", "list_processes", "check_logs", "clean_temp",
   "update_system", "analyze_project", "process_todos", "execute_critical",
   "generate_report"]

/-- Modelled from the spec: `run_system_command`, whose Rust source is not
present in the repository.  Unknown identifiers are a declared error; a
dispatched shell action classifies as Success on exit 0 (captured stdout),
Warning on non-zero exit (captured stdout and stderr), Failure when the
process cannot be launched; an HTTP action classifies as Success with the
response body or Failure with the transport error. -/
def run_system_command (env : DispatchEnv) (id : String) :
    Except String CommandResult :=
  match commandAction id with
  | none => .error ("Unknown command: " ++ id)
  | some (.shell script) =>
    .ok (match env.runShell script with
      | .ok o => if o.exitCode = 0 then .success o.stdout else .warning o.stdout o.stderr
      | .error e => .failure e)
  | some (.http path) =>
    .ok (match env.httpPost path with
      | .ok body => .success body
      | .error e => .failure e)

/-- The spec's reading of the HTTP-ping probe: only a 2xx-class response
counts as running.  Stated separately from the embedding so the two can be
compared. -/
def spec2xxOnly (r : HttpResult) : Bool :=
  match r with
  | .response status => decide (200 ≤ status) && decide (status ≤ 299)
  | .timeout => false
  | .connRefused => false

/-- PID that `get_detailed_status` resolves by re-reading a PID file:
the file's contents, trimmed and parsed as an `i32`. -/
def uptimePid (env : Env) (p : String) : Option Int :=
  (env.readToString p).bind (fun s => rustParseI32 (rustTrim s))

/-- Environment in which every probe resource is absent. -/
def envAllFalse : Env :=
  ⟨fun _ => false, fun _ => none, fun _ => none, fun _ => none, fun _ => none,
   fun _ => none, "2025-01-01T00:00:00+00:00"⟩

/-- Environment whose PID files exist but cannot be read. -/
def envUnreadablePid : Env :=
  ⟨fun _ => true, fun _ => none, fun _ => none, fun _ => none, fun _ => none,
   fun _ => none, "2025-01-01T00:00:00+00:00"⟩

/-- Environment whose PID files hold malformed content. -/
def envMalformedPid : Env :=
  ⟨fun _ => true, fun _ => some "abc", fun _ => none, fun _ => none, fun _ => none,
   fun _ => none, "2025-01-01T00:00:00+00:00"⟩

/-- Environment whose PID files hold pid 123 and whose `kill -0` succeeds. -/
def envLivePid : Env :=
  ⟨fun _ => true, fun _ => some "123", fun _ => some true, fun _ => none,
   fun _ => none, fun _ => none, "2025-01-01T00:00:00+00:00"⟩

/-- Environment in which the dashboard URL answers with HTTP 404. -/
def envHttp404 : Env :=
  ⟨fun _ => false, fun _ => none, fun _ => none, fun _ => none,
   fun _ => some (.response 404), fun _ => none, "2025-01-01T00:00:00+00:00"⟩

/-- Environment with a live autonomous-launcher PID but a `ps` that cannot be
launched, so the elapsed time is unresolvable. -/
def envPsFails : Env :=
  ⟨fun _ => true, fun _ => some "123", fun _ => some true, fun _ => some false,
   fun _ => none, fun _ => none, "2025-01-01T00:00:00+00:00"⟩

/-- Dispatcher environment in which nothing can be launched. -/
def envNoLaunch : DispatchEnv :=
  ⟨fun _ => .error "No such file or directory (os error 2)",
   fun _ => .error "connection refused"⟩

/-- Dispatcher environment whose shell actions exit 0 with output. -/
def envShellOk : DispatchEnv :=
  ⟨fun _ => .ok ⟨0, "script output", ""⟩, fun _ => .error "connection refused"⟩

/-- Dispatcher environment whose shell actions exit 1 with both streams. -/
def envShellWarn : DispatchEnv :=
  ⟨fun _ => .ok ⟨1, "partial output", "something failed"⟩,
   fun _ => .error "connection refused"⟩

/-- Dashboard environment in which the server already responds. -/
def envDashUp : DashEnv :=
  ⟨.ok "/proj/hybrid-desktop-app", some "/proj", some (.response 200), .ok (), none⟩

/-- Dashboard environment in which the server is down, the spawn succeeds and
the re-probe then sees it respond. -/
def envDashDown : DashEnv :=
  ⟨.ok "/proj/hybrid-desktop-app", some "/proj", none, .ok (), some (.response 200)⟩

/-- Dashboard environment in which the server is down and the spawn fails. -/
def envDashSpawnFail : DashEnv :=
  ⟨.ok "/proj/hybrid-desktop-app", some "/proj", some .connRefused,
   .error "No such file or directory (os error 2)", none⟩

/-- Dashboard environment whose current directory cannot be read even though
the dashboard is up. -/
def envDashNoCwd : DashEnv :=
  ⟨.error "permission denied", some "/proj", some (.response 200), .ok (), none⟩

/-- Dashboard environment whose current directory has no parent even though
the dashboard is up. -/
def envDashNoParent : DashEnv :=
  ⟨.ok "/", none, some (.response 200), .ok (), none⟩

/-- Setting one key leaves lookups of every other key unchanged. -/
lemma lookupField_setEntry_ne (fs : List (String × JValue)) {u k : String}
    (v : JValue) (h : k ≠ u) :
    lookupField (setEntry fs u v) k = lookupField fs k := by
  induction fs with
  | nil => simp [setEntry, lookupField, h]
  | cons hd tl ih =>
    obtain ⟨k', w⟩ := hd
    by_cases hk : u = k'
    · subst hk
      simp [setEntry, lookupField, h]
    · simp [setEntry, lookupField, hk, ih]

/-- Setting a key makes it look up to the new value. -/
lemma lookupField_setEntry_self (fs : List (String × JValue)) (u : String)
    (v : JValue) :
    lookupField (setEntry fs u v) u = some v := by
  induction fs with
  | nil => simp [setEntry, lookupField]
  | cons hd tl ih =>
    obtain ⟨k', w⟩ := hd
    by_cases hk : u = k'
    · subst hk; simp [setEntry, lookupField]
    · simp [setEntry, lookupField, hk, ih]

/-- Index assignment of one field leaves every other field unchanged. -/
lemma getField_setField_ne (j : JValue) {u k : String} (v : JValue)
    (h : k ≠ u) :
    (j.setField u v).getField k = j.getField k := by
  cases j with
  | jobj fs => simpa [JValue.setField, JValue.getField] using lookupField_setEntry_ne fs v h
  | jbool b => rfl
  | jstr s => rfl

/-- The uptime-enrichment block leaves every field other than its uptime key
unchanged. -/
lemma getField_addUptime_ne (env : Env) (status : JValue) (f p u k : String)
    (h : k ≠ u) :
    (addUptime env status f p u).getField k = status.getField k := by
  unfold addUptime
  split
  · split
    · split
      · exact getField_setField_ne _ _ h
      · rfl
    · rfl
  · rfl

/-- The uptime-enrichment block applied to an object stays an object. -/
lemma addUptime_isObj (env : Env) (fs : List (String × JValue)) (f p u : String) :
    ∃ fs', addUptime env (.jobj fs) f p u = .jobj fs' := by
  unfold addUptime
  split
  · split
    · split
      · exact ⟨_, rfl⟩
      · exact ⟨fs, rfl⟩
    · exact ⟨fs, rfl⟩
  · exact ⟨fs, rfl⟩

/-- Value of the uptime key after one enrichment block: present exactly when
the flag field is `true` and the re-read PID file parses, and in that case it
carries the trimmed (possibly empty) `ps` output. -/
lemma addUptime_getField_self (env : Env) (fs : List (String × JValue))
    (f p u : String) (flag : Bool)
    (hflag : ((JValue.jobj fs).getField f).bind JValue.asBool = some flag)
    (hu : lookupField fs u = none) :
    (addUptime env (.jobj fs) f p u).getField u =
      if flag then
        (uptimePid env p).map (fun pid => .jstr (rustTrim ((env.psEtime pid).getD "")))
      else none := by
  unfold addUptime uptimePid
  rw [hflag]
  cases flag with
  | false => simpa [JValue.getField] using hu
  | true =>
    cases hr : env.readToString p with
    | none => simpa [hr, JValue.getField] using hu
    | some s =>
      cases hp : rustParseI32 (rustTrim s) with
      | none => simpa [hr, hp, JValue.getField] using hu
      | some pid =>
        simp [hr, hp, JValue.setField, JValue.getField, lookupField_setEntry_self]

/-- The enriched snapshot agrees with the base snapshot on every base field. -/
lemma detailed_preserves_base (env : Env) (k : String)
    (hk : k ∈ statusFieldNames) :
    (okValue (get_detailed_status env)).getField k
      = (okValue (get_system_status env)).getField k := by
  have h1 : k ≠ "autonomous_uptime" := fun he => by
    subst he; exact absurd hk (by decide)
  have h2 : k ≠ "mcp_uptime" := fun he => by
    subst he; exact absurd hk (by decide)
  show (addUptime env
      (addUptime env (okValue (get_system_status env))
        "autonomous_running" autoPidPath "autonomous_uptime")
      "mcp_server_running" mcpPidPath "mcp_uptime").getField k = _
  rw [getField_addUptime_ne _ _ _ _ _ _ h2, getField_addUptime_ne _ _ _ _ _ _ h1]

/-- C1: for every environment state — PID files present or absent, well-formed
or malformed, external commands succeeding or failing — `get_system_status`
returns a successful (`Ok`) result whose value is a JSON object with exactly
the four boolean fields `autonomous_running`, `mcp_server_running`,
`health_monitor_active`, `web_dashboards_available` plus a parseable
timestamp field `last_health_check`; it never returns the error variant.
The timestamp is the clock library's RFC-3339 rendering, taken as-is; its
parseability is the stated property of that rendering. -/
theorem c1_status_total_shape (env : Env)
    (hclock : (rfc3339Parse env.now).isSome = true) :
    ∃ a b c d : Bool, ∃ t : String,
      get_system_status env = .ok (.jobj
        [("autonomous_running", .jbool a),
         ("mcp_server_running", .jbool b),
         ("health_monitor_active", .jbool c),
         ("web_dashboards_available", .jbool d),
         ("last_health_check", .jstr t)]) ∧
      (rfc3339Parse t).isSome = true :=
  ⟨pidFileProbe env autoPidPath, pidFileProbe env mcpPidPath,
   pgrepProbe env "health_monitor.sh", curlProbe env, env.now, rfl, hclock⟩

/-- Witness for C1 at a concrete environment with a concrete clock string. -/
theorem c1_status_total_shape_witness :
    (rfc3339Parse envAllFalse.now).isSome = true ∧
    (∃ a b c d : Bool, ∃ t : String,
      get_system_status envAllFalse = .ok (.jobj
        [("autonomous_running", .jbool a),
         ("mcp_server_running", .jbool b),
         ("health_monitor_active", .jbool c),
         ("web_dashboards_available", .jbool d),
         ("last_health_check", .jstr t)]) ∧
      (rfc3339Parse t).isSome = true) :=
  ⟨by decide, c1_status_total_shape envAllFalse (by decide)⟩

/-- C2: each PID-file probe (`autonomous_running` from
`logs/autonomous_launcher.pid`, `mcp_server_running` from
`logs/mcp_auto_restart.pid`) is `false` when the file is absent or its read
fails, `false` when the trimmed contents do not parse as an integer process
id, and otherwise equals the success of `kill -0 <pid>` with any execution
error coerced to `false`. -/
theorem c2_pid_file_probe (env : Env) (p : String) :
    ((env.pathExists p = false → pidFileProbe env p = false) ∧
     (env.readToString p = none → pidFileProbe env p = false) ∧
     (∀ s, env.readToString p = some s → rustParseI32 (rustTrim s) = none →
        pidFileProbe env p = false) ∧
     (∀ s pid, env.pathExists p = true → env.readToString p = some s →
        rustParseI32 (rustTrim s) = some pid →
        pidFileProbe env p = (env.killOutput pid).getD false)) ∧
    (okValue (get_system_status env)).getField "autonomous_running"
      = some (.jbool (pidFileProbe env autoPidPath)) ∧
    (okValue (get_system_status env)).getField "mcp_server_running"
      = some (.jbool (pidFileProbe env mcpPidPath)) := by
  refine ⟨⟨fun h => ?_, fun h => ?_, fun s h1 h2 => ?_, fun s pid hex h1 h2 => ?_⟩, rfl, rfl⟩
  · simp [pidFileProbe, h]
  · simp [pidFileProbe, h]
  · simp [pidFileProbe, h1, h2]
  · simp [pidFileProbe, hex, h1, h2]

/-- Witness for C2: the four probe cases at concrete environments — absent
file, unreadable file, malformed content `"abc"`, and live pid `123`. -/
theorem c2_pid_file_probe_witness :
    pidFileProbe envAllFalse autoPidPath = false ∧
    pidFileProbe envUnreadablePid autoPidPath = false ∧
    pidFileProbe envMalformedPid autoPidPath = false ∧
    pidFileProbe envLivePid autoPidPath = (envLivePid.killOutput 123).getD false :=
  ⟨(c2_pid_file_probe envAllFalse autoPidPath).1.1 rfl,
   (c2_pid_file_probe envUnreadablePid autoPidPath).1.2.1 rfl,
   (c2_pid_file_probe envMalformedPid autoPidPath).1.2.2.1 "abc" rfl rfl,
   (c2_pid_file_probe envLivePid autoPidPath).1.2.2.2 "123" 123 rfl rfl rfl⟩

/-- Counterexample to C3 as stated: the probe runs
`curl -s --max-time 2 http://localhost:8085` without `-f`/`--fail`, so a
completed HTTP 404 response makes `curl` exit 0 and the probe yields `true`,
although 404 is not 2xx-class. -/
theorem c3_counterexample :
    envHttp404.httpGet dashboardUrl = some (.response 404) ∧
    curlProbe envHttp404 = true ∧
    spec2xxOnly (.response 404) = false :=
  ⟨rfl, rfl, rfl⟩

/-- C3 (amended): the HTTP-ping probe yields `true` exactly when the GET to
the fixed localhost URL completes with some HTTP response within the
2-second timeout — regardless of status class, since `--fail` is not passed —
while a timeout, a connection refusal, or a failure to launch `curl` yields
`false`. -/
theorem c3_amended_http_probe (env : Env) :
    curlProbe env = true ↔
      ∃ s : Nat, env.httpGet dashboardUrl = some (.response s) := by
  unfold curlProbe
  cases h : env.httpGet dashboardUrl with
  | none => simp
  | some r =>
    cases r with
    | response s =>
      simp only [h, Option.some.injEq]
      constructor
      · intro _; exact ⟨s, rfl⟩
      · intro _; rfl
    | timeout => simp [h, curlExitZero]
    | connRefused => simp [h, curlExitZero]

/-- C4: every command identifier outside the closed enumerated set yields the
distinct unknown-command error, in every dispatcher state (the result does
not depend on the environment, so no external action can be involved). -/
theorem c4_unknown_command (env : DispatchEnv) (id : String)
    (h : id ∉ knownCommands) :
    run_system_command env id = .error ("Unknown command: " ++ id) := by
  have h' := h
  simp only [knownCommands, List.mem_cons, List.not_mem_nil, or_false, not_or] at h'
  obtain ⟨h1, h2, h3, h4, h5, h6, h7, h8, h9, h10, h11, h12, h13⟩ := h'
  simp [run_system_command, commandAction, h1, h2, h3, h4, h5, h6, h7, h8, h9,
    h10, h11, h12, h13]

/-- Witness for C4 at the identifier `bogus` in a concrete environment. -/
theorem c4_unknown_command_witness :
    run_system_command envNoLaunch "bogus" = .error ("Unknown command: " ++ "bogus") :=
  c4_unknown_command envNoLaunch "bogus" (by decide)

/-- C5 (spec-modelled, the dispatcher's Rust source is absent from the
repository): for every known command identifier dispatched to a shell
action — exit 0 gives Success with the captured stdout, a non-zero exit
gives Warning with both captured stdout and stderr, and a launch failure
gives Failure with the launch error description. -/
theorem c5_shell_classification (env : DispatchEnv) (id script : String)
    (hact : commandAction id = some (.shell script)) :
    (∀ o, env.runShell script = .ok o → o.exitCode = 0 →
       run_system_command env id = .ok (.success o.stdout)) ∧
    (∀ o, env.runShell script = .ok o → o.exitCode ≠ 0 →
       run_system_command env id = .ok (.warning o.stdout o.stderr)) ∧
    (∀ e, env.runShell script = .error e →
       run_system_command env id = .ok (.failure e)) := by
  refine ⟨fun o ho hz => ?_, fun o ho hz => ?_, fun e he => ?_⟩
  · simp [run_system_command, hact, ho, hz]
  · simp [run_system_command, hact, ho, hz]
  · simp [run_system_command, hact, he]

/-- Witness for C5: the three outcomes of `start_autonomous` at concrete
dispatcher environments. -/
theorem c5_shell_classification_witness :
    run_system_command envShellOk "start_autonomous" = .ok (.success "script output") ∧
    run_system_command envShellWarn "start_autonomous"
      = .ok (.warning "partial output" "something failed") ∧
    run_system_command envNoLaunch "start_autonomous"
      = .ok (.failure "No such file or directory (os error 2)") :=
  ⟨(c5_shell_classification envShellOk "start_autonomous" "start_autonomous" rfl).1
      ⟨0, "script output", ""⟩ rfl rfl,
   (c5_shell_classification envShellWarn "start_autonomous" "start_autonomous" rfl).2.1
      ⟨1, "partial output", "something failed"⟩ rfl (by decide),
   (c5_shell_classification envNoLaunch "start_autonomous" "start_autonomous" rfl).2.2
      "No such file or directory (os error 2)" rfl⟩

/-- Counterexample to C6 as stated: in an environment where the autonomous
probe reports running but `ps` cannot be launched (elapsed time not
resolvable), `get_detailed_status` still adds `autonomous_uptime` — with the
empty string as a placeholder — instead of omitting the field. -/
theorem c6_counterexample :
    pidFileProbe envPsFails autoPidPath = true ∧
    envPsFails.psEtime 123 = none ∧
    (okValue (get_detailed_status envPsFails)).getField "autonomous_uptime"
      = some (.jstr "") :=
  ⟨rfl, rfl, rfl⟩

/-- C6 (amended): `get_detailed_status` returns every field of the
`get_system_status` snapshot, and adds a per-service uptime field exactly
when that service's PID-file probe reported running and the re-read PID file
parses; in that case the field is always added, carrying the trimmed `ps`
elapsed-time output, which degrades to the empty string (a placeholder, not
an omitted field) when `ps` fails or yields no output. -/
theorem c6_amended_uptime_enrichment (env : Env) :
    (get_detailed_status env).isOk = true ∧
    (∀ k, k ∈ statusFieldNames →
      (okValue (get_detailed_status env)).getField k
        = (okValue (get_system_status env)).getField k) ∧
    ((okValue (get_detailed_status env)).getField "autonomous_uptime"
       = if pidFileProbe env autoPidPath then
           (uptimePid env autoPidPath).map
             (fun pid => .jstr (rustTrim ((env.psEtime pid).getD "")))
         else none) ∧
    ((okValue (get_detailed_status env)).getField "mcp_uptime"
       = if pidFileProbe env mcpPidPath then
           (uptimePid env mcpPidPath).map
             (fun pid => .jstr (rustTrim ((env.psEtime pid).getD "")))
         else none) := by
  have hbase : okValue (get_system_status env) = .jobj
      [("autonomous_running", .jbool (pidFileProbe env autoPidPath)),
       ("mcp_server_running", .jbool (pidFileProbe env mcpPidPath)),
       ("health_monitor_active", .jbool (pgrepProbe env "health_monitor.sh")),
       ("web_dashboards_available", .jbool (curlProbe env)),
       ("last_health_check", .jstr env.now)] := rfl
  have hdet : okValue (get_detailed_status env)
      = addUptime env (addUptime env (okValue (get_system_status env))
          "autonomous_running" autoPidPath "autonomous_uptime")
        "mcp_server_running" mcpPidPath "mcp_uptime" := rfl
  refine ⟨rfl, detailed_preserves_base env, ?_, ?_⟩
  · rw [hdet, getField_addUptime_ne _ _ _ _ _ _ (by decide), hbase]
    exact addUptime_getField_self env _ _ _ _ (pidFileProbe env autoPidPath) rfl rfl
  · have hst1 : ∃ fs1, addUptime env (okValue (get_system_status env))
        "autonomous_running" autoPidPath "autonomous_uptime" = .jobj fs1 := by
      rw [hbase]; exact addUptime_isObj env _ _ _ _
    obtain ⟨fs1, hfs1⟩ := hst1
    have hflag1 : ((JValue.jobj fs1).getField "mcp_server_running").bind JValue.asBool
        = some (pidFileProbe env mcpPidPath) := by
      rw [← hfs1, getField_addUptime_ne _ _ _ _ _ _ (by decide), hbase]
      rfl
    have hu1 : lookupField fs1 "mcp_uptime" = none := by
      have hx : (JValue.jobj fs1).getField "mcp_uptime" = none := by
        rw [← hfs1, getField_addUptime_ne _ _ _ _ _ _ (by decide), hbase]
        rfl
      simpa [JValue.getField] using hx
    rw [hdet, hfs1]
    exact addUptime_getField_self env fs1 _ _ _ (pidFileProbe env mcpPidPath) hflag1 hu1

/-- Witness for C6 (amended) at a concrete environment, discharging the
field-membership hypothesis at `last_health_check`. -/
theorem c6_amended_uptime_enrichment_witness :
    (okValue (get_detailed_status envPsFails)).getField "last_health_check"
      = (okValue (get_system_status envPsFails)).getField "last_health_check" :=
  (c6_amended_uptime_enrichment envPsFails).2.1 "last_health_check" (by decide)

/-- C7: whenever the initial probe of the dashboard URL is performed and
succeeds, `start_dashboard_server` returns the already-running message
without spawning anything, and a second consecutive call in the same (or any
other such) state returns the same message, again without spawning. -/
theorem c7_idempotent_when_up (env env' : DashEnv) (cwd cwd' root root' : String)
    (hc : env.currentDir = .ok cwd) (hp : env.parentDir = some root)
    (hprobe : dashCurlOk env.curlInitial = true)
    (hc' : env'.currentDir = .ok cwd') (hp' : env'.parentDir = some root')
    (hprobe' : dashCurlOk env'.curlInitial = true) :
    sdsTraced env = ⟨.ok "✅ Dashboard server is already running", 0, 1, 0⟩ ∧
    sdsTraced env' = ⟨.ok "✅ Dashboard server is already running", 0, 1, 0⟩ ∧
    start_dashboard_server env = start_dashboard_server env' := by
  have h1 : sdsTraced env = ⟨.ok "✅ Dashboard server is already running", 0, 1, 0⟩ := by
    simp [sdsTraced, hc, hp, hprobe]
  have h2 : sdsTraced env' = ⟨.ok "✅ Dashboard server is already running", 0, 1, 0⟩ := by
    simp [sdsTraced, hc', hp', hprobe']
  exact ⟨h1, h2, by simp [start_dashboard_server, h1, h2]⟩

/-- Witness for C7: two consecutive calls in the already-running state. -/
theorem c7_idempotent_when_up_witness :
    sdsTraced envDashUp = ⟨.ok "✅ Dashboard server is already running", 0, 1, 0⟩ ∧
    sdsTraced envDashUp = ⟨.ok "✅ Dashboard server is already running", 0, 1, 0⟩ ∧
    start_dashboard_server envDashUp = start_dashboard_server envDashUp :=
  c7_idempotent_when_up envDashUp envDashUp "/proj/hybrid-desktop-app"
    "/proj/hybrid-desktop-app" "/proj" "/proj" rfl rfl rfl rfl rfl rfl

/-- C8: when the initial dashboard probe fails, exactly one background spawn
is attempted; a failed spawn returns the launch-error value immediately
(no sleep, no re-probe), and a successful spawn is followed by the fixed
2-second grace period and exactly one re-probe, whose outcome alone decides
between the success message and the not-yet-responding warning. -/
theorem c8_spawn_path (env : DashEnv) (cwd root : String)
    (hc : env.currentDir = .ok cwd) (hp : env.parentDir = some root)
    (hprobe : dashCurlOk env.curlInitial = false) :
    (∀ e, env.spawn = .error e →
       sdsTraced env
         = ⟨.error ("❌ Failed to start dashboard server: " ++ e), 1, 1, 0⟩) ∧
    (env.spawn = .ok () →
       sdsTraced env =
         ⟨if dashCurlOk env.curlAfter then .ok "✅ Dashboard server started successfully"
           else .ok "⚠️ Dashboard server may have started but is not responding yet",
          1, 2, 2⟩) := by
  constructor
  · intro e he
    simp [sdsTraced, hc, hp, hprobe, he]
  · intro hs
    cases hca : dashCurlOk env.curlAfter <;> simp [sdsTraced, hc, hp, hprobe, hs, hca]

/-- Witness for C8: a successful spawn confirmed by the re-probe, and a spawn
that fails to launch. -/
theorem c8_spawn_path_witness :
    sdsTraced envDashDown = ⟨.ok "✅ Dashboard server started successfully", 1, 2, 2⟩ ∧
    sdsTraced envDashSpawnFail
      = ⟨.error ("❌ Failed to start dashboard server: "
           ++ "No such file or directory (os error 2)"), 1, 1, 0⟩ :=
  ⟨(c8_spawn_path envDashDown "/proj/hybrid-desktop-app" "/proj" rfl rfl rfl).2 rfl,
   (c8_spawn_path envDashSpawnFail "/proj/hybrid-desktop-app" "/proj" rfl rfl rfl).1
     "No such file or directory (os error 2)" rfl⟩

/-- C10: `start_dashboard_server` can fail before probing or spawning: an
unreadable current directory returns the current-directory error and a
parentless current directory returns the project-root error, in both cases
with zero probes and zero spawns — so the operation is not unconditionally
probe-first even when the dashboard is already running. -/
theorem c10_cwd_errors_precede_probe (env : DashEnv) :
    (∀ e, env.currentDir = .error e →
       sdsTraced env = ⟨.error ("Failed to get current directory: " ++ e), 0, 0, 0⟩) ∧
    (∀ cwd, env.currentDir = .ok cwd → env.parentDir = none →
       sdsTraced env = ⟨.error "Failed to get project root", 0, 0, 0⟩) := by
  constructor
  · intro e he
    simp [sdsTraced, he]
  · intro cwd hc hp
    simp [sdsTraced, hc, hp]

/-- Witness for C10: both early-error shapes, each in a state where the
dashboard URL would in fact respond. -/
theorem c10_cwd_errors_precede_probe_witness :
    (dashCurlOk envDashNoCwd.curlInitial = true ∧
     sdsTraced envDashNoCwd
       = ⟨.error ("Failed to get current directory: " ++ "permission denied"), 0, 0, 0⟩) ∧
    (dashCurlOk envDashNoParent.curlInitial = true ∧
     sdsTraced envDashNoParent = ⟨.error "Failed to get project root", 0, 0, 0⟩) :=
  ⟨⟨rfl, (c10_cwd_errors_precede_probe envDashNoCwd).1 "permission denied" rfl⟩,
   ⟨rfl, (c10_cwd_errors_precede_probe envDashNoParent).2 "/" rfl rfl⟩⟩

/-- C9: enrichment only adds fields — the four boolean fields and the
`last_health_check` timestamp of `get_detailed_status` are exactly those of
the underlying `get_system_status` snapshot, never modified or removed. -/
theorem c9_enrichment_preserves_base (env : Env) (k : String)
    (hk : k ∈ statusFieldNames) :
    (get_detailed_status env).isOk = true ∧
    (okValue (get_detailed_status env)).getField k
      = (okValue (get_system_status env)).getField k :=
  ⟨rfl, detailed_preserves_base env k hk⟩

/-- Witness for C9 at a concrete environment and the field
`web_dashboards_available`. -/
theorem c9_enrichment_preserves_base_witness :
    (get_detailed_status envAllFalse).isOk = true ∧
    (okValue (get_detailed_status envAllFalse)).getField "web_dashboards_available"
      = (okValue (get_system_status envAllFalse)).getField "web_dashboards_available" :=
  c9_enrichment_preserves_base envAllFalse "web_dashboards_available" (by decide)
